import Mathlib

/-!
Shallow embedding of the Nanette risk-signal extraction and scoring pipeline
(analyzers/contract_analyzer) and proofs of the specified properties.

Conventions of the embedding:
* Python ints are modelled as `Int`; all arithmetic is exact.
* Python dict "truthiness" checks on strings are modelled as `≠ ""`, on ints
  as `≠ 0`, on optionals as `Option.isSome`.
* Python `round` (banker's rounding, half-to-even) is modelled explicitly.
* Free-form presentation strings (recommendations) are omitted: they carry no
  information used by any downstream computation.
-/

/-- A risk signal / vulnerability entry, as produced by the scanners
(dict keys `type`, `severity`, `description`, optional `location`). -/
structure RiskSignal where
  type : String
  severity : String
  description : String
  location : Option Nat
  deriving DecidableEq, Repr

/-- A warning entry (dict keys `type`, `severity`, `message`). -/
structure WarningEntry where
  type : String
  severity : String
  message : String
  deriving DecidableEq, Repr

/-- Severity-based deduction table of `SafetyScorer._calculate_security_score`
(`deductions.get(severity, 2)`). -/
def severityDeduction (severity : String) : Int :=
  if severity = "critical" then 15
  else if severity = "high" then 10
  else if severity = "medium" then 5
  else if severity = "low" then 2
  else 2

/-- `SafetyScorer._calculate_security_score`: start at 40, deduct per signal
by severity, flat -5 if any `reentrancy` signal, flat -10 if any
`honeypot_pattern` signal, force 40 when the signal list is empty,
floor at 0. -/
def calculateSecurityScore (vulnerabilities : List RiskSignal) : Int :=
  let score : Int := 40 - (vulnerabilities.map (fun v => severityDeduction v.severity)).sum
  let score := if vulnerabilities.any (fun v => v.type = "reentrancy") then score - 5 else score
  let score := if vulnerabilities.any (fun v => v.type = "honeypot_pattern") then score - 10 else score
  let score := if vulnerabilities.length = 0 then 40 else score
  max score 0

/-- The `code_quality` section of an analysis-results dict, as read by
`SafetyScorer._calculate_code_quality_score`.  `score = none` models the
key `'score'` being absent (the unverified-contract case, where the section
is the empty dict). -/
structure CodeQualitySection where
  score : Option Int
  modern_compiler : Bool
  compiler_version : String
  optimization_enabled : Bool
  license : String
  deriving DecidableEq, Repr

/-- `SafetyScorer._calculate_code_quality_score`. -/
def calculateCodeQualityScore (is_verified : Bool) (cq : CodeQualitySection) : Int :=
  match cq.score with
  | some s => s
  | none =>
    let score : Int := 0
    let score := if is_verified then score + 10 else score
    let score := if cq.modern_compiler then score + 5
                 else if cq.compiler_version ≠ "" then score + 3 else score
    let score := if cq.optimization_enabled then score + 5 else score
    let score := if cq.license ≠ "" ∧ cq.license ≠ "None" then score + 5 else score
    min score 25

/-- The `tokenomics` section of an analysis-results dict, as read by
`SafetyScorer._calculate_tokenomics_score`. -/
structure TokenomicsSection where
  score : Option Int
  red_flags : List String
  warnings : List String
  deriving DecidableEq, Repr

/-- `SafetyScorer._calculate_tokenomics_score` (the aggregator-side fallback). -/
def aggregatorTokenomicsScore (t : TokenomicsSection) : Int :=
  match t.score with
  | some s => s
  | none => max (20 - (t.red_flags.length : Int) * 4 - (t.warnings.length : Int) * 2) 0

/-- The `liquidity` section of an analysis-results dict. -/
structure LiquiditySection where
  is_locked : Bool
  lock_duration_days : Int
  lock_percentage : Int
  deriving DecidableEq, Repr

/-- `SafetyScorer._calculate_liquidity_score`. -/
def calculateLiquidityScore (l : LiquiditySection) : Int :=
  let score : Int :=
    if l.is_locked then
      let score : Int := 10
      let score := score + (if l.lock_duration_days ≥ 365 then 3
                            else if l.lock_duration_days ≥ 180 then 2
                            else if l.lock_duration_days ≥ 90 then 1 else 0)
      score + (if l.lock_percentage ≥ 90 then 2
               else if l.lock_percentage ≥ 70 then 1 else 0)
    else 0
  min score 15

/-- The analysis-results input of `SafetyScorer.calculate_score`, restricted to
the keys that method reads. -/
structure AnalysisResults where
  is_verified : Bool
  code_quality : CodeQualitySection
  vulnerabilities : List RiskSignal
  tokenomics : TokenomicsSection
  liquidity : LiquiditySection
  deriving DecidableEq, Repr

/-- Risk level and colour returned by `SafetyScorer._determine_risk_level`
(the free-form recommendation sentence is omitted). -/
structure RiskAssessment where
  level : String
  color : String
  deriving DecidableEq, Repr

/-- `SafetyScorer._determine_risk_level`. -/
def determineRiskLevel (overall_score : Int) : RiskAssessment :=
  if overall_score ≥ 85 then ⟨"very_low", "green"⟩
  else if overall_score ≥ 70 then ⟨"low", "lightgreen"⟩
  else if overall_score ≥ 50 then ⟨"medium", "yellow"⟩
  else if overall_score ≥ 30 then ⟨"high", "orange"⟩
  else ⟨"critical", "red"⟩

/-- The scores dict returned by `SafetyScorer.calculate_score`. -/
structure Scores where
  code_quality_score : Int
  security_score : Int
  tokenomics_score : Int
  liquidity_score : Int
  overall_score : Int
  risk_level : String
  risk_color : String
  deriving DecidableEq, Repr

/-- `SafetyScorer.calculate_score`. -/
def calculateScore (analysis : AnalysisResults) : Scores :=
  let cq := calculateCodeQualityScore analysis.is_verified analysis.code_quality
  let sec := calculateSecurityScore analysis.vulnerabilities
  let tok := aggregatorTokenomicsScore analysis.tokenomics
  let liq := calculateLiquidityScore analysis.liquidity
  let overall := cq + sec + tok + liq
  let risk := determineRiskLevel overall
  { code_quality_score := cq
    security_score := sec
    tokenomics_score := tok
    liquidity_score := liq
    overall_score := overall
    risk_level := risk.level
    risk_color := risk.color }

/-- Risk-level breakpoints of `CreatorAnalyzer._calculate_creator_trust_score`. -/
def creatorRiskLevel (total : Int) : String :=
  if total ≥ 85 then "very_low"
  else if total ≥ 70 then "low"
  else if total ≥ 50 then "medium"
  else if total ≥ 30 then "high"
  else "critical"

/-- Numeric rank of a risk tier, used to state monotonicity (safer tiers rank
higher). -/
def riskRank (level : String) : Nat :=
  if level = "critical" then 0
  else if level = "high" then 1
  else if level = "medium" then 2
  else if level = "low" then 3
  else if level = "very_low" then 4
  else 5

/-- `clamp(x, lo, hi)` as used by the spec: `max lo (min hi x)`. -/
def clampInt (lo hi x : Int) : Int := max lo (min hi x)

/-- Python `str.lower()` (character-wise lowercase; agrees with
`String.toLower` but written over the character list so that it reduces in
the kernel). -/
def pyLower (s : String) : String := ⟨s.data.map Char.toLower⟩

/-- Python `s[:n]` (prefix of at most `n` characters). -/
def pyTake (s : String) (n : Nat) : String := ⟨s.data.take n⟩

/-! ## Creator analyzer: trust score -/

/-- Python `round` (half-to-even) of the nonnegative fraction `n / d`
(`d > 0`), used for `round((alive_count / len(siblings)) * 25)`. -/
def pyRoundDiv (n d : Nat) : Nat :=
  if 2 * (n % d) < d then n / d
  else if 2 * (n % d) > d then n / d + 1
  else if (n / d) % 2 = 0 then n / d else n / d + 1

/-- A sibling contract after the deep health check merged its fields
(`sibling.update(health)` in `CreatorAnalyzer.analyze_creator`).
`creation_timestamp` stores the epoch second whose ISO rendering the Python
code stores (`none` when the creation timestamp was 0/unknown). -/
structure CheckedSibling where
  address : String
  creation_timestamp : Option Int
  creation_ts : Int
  tx_hash : String
  is_alive : Bool
  is_active : Bool
  lifespan_days : Int
  token_name : Option String
  token_symbol : Option String
  had_liquidity_removal : Bool
  last_tx_timestamp : Option Int
  deriving DecidableEq, Repr

/-- A funding red flag produced by
`CreatorAnalyzer._detect_funding_source_red_flags`. -/
structure RedFlag where
  type : String
  severity : String
  description : String
  deriving DecidableEq, Repr

/-- Funding-source record of the deployer profile. -/
structure FundingSource where
  address : String
  label : String
  is_mixer : Bool
  deriving DecidableEq, Repr

/-- Deployer wallet profile built by `CreatorAnalyzer._get_deployer_profile`
and enriched by `analyze_creator` (`is_factory`, `creation_tx_hash`).
`balance_wei` keeps the raw integer balance; the Python code stores
`round(balance_wei / 1e18, 6)`, a purely presentational conversion. -/
structure DeployerProfile where
  address : String
  wallet_age_days : Int
  first_tx_timestamp : Option Int
  balance_wei : Int
  total_transactions : Int
  funding_source : FundingSource
  is_factory : Bool
  creation_tx_hash : String
  deriving DecidableEq, Repr

/-- The Creator Trust Score record (the free-form recommendation sentence is
omitted). -/
structure TrustScore where
  overall_score : Int
  risk_level : String
  wallet_maturity_score : Int
  deployment_history_score : Int
  sibling_survival_score : Int
  funding_transparency_score : Int
  behavioral_patterns_score : Int
  deriving DecidableEq, Repr

/-- Number of pairs of consecutive (ascending-sorted) deployment timestamps
less than 24h apart. -/
def countRapidDeploys : List Int → Nat
  | a :: b :: rest => (if b - a < 86400 then 1 else 0) + countRapidDeploys (b :: rest)
  | _ => 0

/-- Wallet Maturity component (0-20) of the Creator Trust Score. -/
def walletMaturityScore (age_days : Int) : Int :=
  if age_days > 365 then 20
  else if age_days > 180 then 15
  else if age_days > 30 then 10
  else if age_days > 7 then 5
  else 0

/-- Deployment History component (0-30) of the Creator Trust Score. -/
def deploymentHistoryScore (siblings : List CheckedSibling) (now : Int) : Int :=
  let dead_count : Int := ((siblings.filter (fun s => ¬ s.is_alive)).length : Int)
  let history : Int := 30 - min 15 (dead_count * 3)
  let recent_siblings : Int :=
    ((siblings.filter (fun s => s.creation_ts > now - 30 * 86400)).length : Int)
  let history := if siblings.length > 5 ∧ recent_siblings > 5 then history - 5 else history
  let lifespans := (siblings.filter (fun s => s.lifespan_days ≠ 0)).map (fun s => s.lifespan_days)
  -- `sum(lifespans)/len(lifespans) < 7` on exact values
  let history := if lifespans ≠ [] ∧ lifespans.sum < 7 * (lifespans.length : Int)
                 then history - 5 else history
  let long_lived := (siblings.filter (fun s => s.is_alive ∧ s.lifespan_days > 180)).length
  let history := if long_lived > 0 then min 30 (history + 5) else history
  max 0 history

/-- Sibling Survival Rate component (0-25) of the Creator Trust Score. -/
def siblingSurvivalScore (siblings : List CheckedSibling) : Int :=
  if siblings.length = 0 then 15
  else
    let alive_count := (siblings.filter (fun s => s.is_alive)).length
    let survival : Int := (pyRoundDiv (alive_count * 25) siblings.length : Int)
    let lp_removals : Int := ((siblings.filter (fun s => s.had_liquidity_removal)).length : Int)
    let survival := survival - min 15 (lp_removals * 5)
    max 0 survival

/-- One deduction step of the Funding Transparency component. -/
def transparencyStep (acc : Int) (f : RedFlag) : Int :=
  if f.type = "mixer_funding" then acc - 15
  else if f.type = "brand_new_wallet" then acc - 10
  else if f.type = "very_new_wallet" then acc - 5
  else if f.type = "no_history" then acc - 10
  else acc

/-- Funding Transparency component (0-15) of the Creator Trust Score. -/
def fundingTransparencyScore (red_flags : List RedFlag) : Int :=
  max 0 (red_flags.foldl transparencyStep 15)

/-- Behavioral Patterns component (0-10) of the Creator Trust Score. -/
def behavioralPatternsScore (siblings : List CheckedSibling) : Int :=
  let drain_count : Int :=
    ((siblings.filter (fun s => s.had_liquidity_removal ∧ s.lifespan_days < 14)).length : Int)
  let behavior : Int := if drain_count > 0 then 10 - min 5 (drain_count * 2) else 10
  let timestamps :=
    ((siblings.filter (fun s => s.creation_ts ≠ 0)).map (fun s => s.creation_ts)).insertionSort (· ≤ ·)
  let behavior := if siblings.length ≥ 3 ∧ countRapidDeploys timestamps ≥ 3
                  then behavior - 5 else behavior
  max 0 behavior

/-- `CreatorAnalyzer._calculate_creator_trust_score`.  `now` is the value of
`time.time()` during the computation. -/
def calculateCreatorTrustScore (deployer : DeployerProfile)
    (siblings : List CheckedSibling) (red_flags : List RedFlag)
    (now : Int) : TrustScore :=
  let maturity := walletMaturityScore deployer.wallet_age_days
  let history := deploymentHistoryScore siblings now
  let survival := siblingSurvivalScore siblings
  let transparency := fundingTransparencyScore red_flags
  let behavior := behavioralPatternsScore siblings
  let total := maturity + history + survival + transparency + behavior
  let total := max 0 (min 100 total)
  { overall_score := total
    risk_level := creatorRiskLevel total
    wallet_maturity_score := maturity
    deployment_history_score := history
    sibling_survival_score := survival
    funding_transparency_score := transparency
    behavioral_patterns_score := behavior }

/-! ## Creator analyzer: trace pipeline -/

/-- A transaction record as consumed by the creator analyzer (relevant keys of
the explorer dicts; numeric fields already converted as the Python code does
with `int(...)`). -/
structure ChainTx where
  fromAddr : String
  toAddr : String
  value : Int
  timeStamp : Int
  contractAddress : String
  hash : String
  input : String
  deriving DecidableEq, Repr

/-- Result of the explorer `getcontractcreation` lookup. -/
structure CreatorInfo where
  deployer : String
  creation_tx_hash : String
  deriving DecidableEq, Repr

/-- Token metadata returned by `EVMClient.get_token_info`. -/
structure TokenInfo where
  name : Option String
  symbol : Option String
  deriving DecidableEq, Repr

/-- The chain-data provider as seen by `CreatorAnalyzer`: one field per
`EVMClient` method the analyzer calls, plus the clock value `now`
(`time.time()`).  `getFirstTransactions a limit` and
`getTransactionHistory a offset` model the corresponding paginated calls. -/
structure CreatorEnv where
  now : Int
  getContractCreator : String → Option CreatorInfo
  getContractCode : String → String
  getFirstTransactions : String → Nat → List ChainTx
  getBalance : String → Int
  getTransactionCount : String → Int
  getTransactionHistory : String → Nat → List ChainTx
  getTokenInfo : String → Option TokenInfo

/-- `KNOWN_MIXER_ADDRESSES` per-chain table (address, label). -/
def knownMixerAddresses (blockchain : String) : List (String × String) :=
  if blockchain = "ethereum" then
    [("0x12d66f87a04a9e220743712ce6d9bb1b5616b8fc", "Tornado Cash 0.1 ETH"),
     ("0x47ce0c6ed5b0ce3d3a51fdb1c52dc66a7c3c2936", "Tornado Cash 1 ETH"),
     ("0x910cbd523d972eb0a6f4cae4618ad62622b39dbf", "Tornado Cash 10 ETH"),
     ("0xa160cdab225685da1d56aa342ad8841c3b53f291", "Tornado Cash 100 ETH"),
     ("0xd90e2f925da726b50c4ed8d0fb90ad053324f31b", "Tornado Cash Router"),
     ("0xd4b88df4d29f5cedd6857912842cff3b20c8cfa3", "Tornado Cash 100 ETH (old)")]
  else if blockchain = "bsc" then
    [("0x84443cfd09a48af6ef360c6976c5392ac5023a1f", "Tornado Cash BSC")]
  else []

/-- `dict.get` on an association list. -/
def lookupAssoc (table : List (String × String)) (key : String) : Option String :=
  (table.find? (fun p => p.1 = key)).map (fun p => p.2)

/-- `REMOVE_LIQUIDITY_SIGS`: Uniswap V2 removeLiquidity selectors. -/
def removeLiquiditySigs : List String :=
  ["0xbaa2abde", "0x02751cec", "0xaf2979eb", "0x5b0d5984", "0xded9382a", "0x2195995c"]

/-- `CreatorAnalyzer._get_deployer_profile` (without the `is_factory` /
`creation_tx_hash` enrichment done by the caller).  Python `int()` truncates
toward zero, hence `Int.tdiv`. -/
def getDeployerProfile (env : CreatorEnv) (blockchain : String)
    (deployer_address : String) : DeployerProfile :=
  let first_txs := env.getFirstTransactions deployer_address 3
  let (age, first_ts) :=
    match first_txs with
    | [] => ((0 : Int), (none : Option Int))
    | tx :: _ =>
      if tx.timeStamp ≠ 0 then
        (Int.tdiv (env.now - tx.timeStamp) 86400, some tx.timeStamp)
      else (0, none)
  let funding :=
    match first_txs.find? (fun tx =>
        pyLower tx.toAddr = pyLower deployer_address ∧ tx.value > 0) with
    | some tx =>
      let mixers := knownMixerAddresses blockchain
      { address := tx.fromAddr
        label := (lookupAssoc mixers (pyLower tx.fromAddr)).getD "Unknown"
        is_mixer := (lookupAssoc mixers (pyLower tx.fromAddr)).isSome }
    | none => { address := "Unknown", label := "Unknown", is_mixer := false }
  { address := deployer_address
    wallet_age_days := age
    first_tx_timestamp := first_ts
    balance_wei := env.getBalance deployer_address
    total_transactions := env.getTransactionCount deployer_address
    funding_source := funding
    is_factory := false
    creation_tx_hash := "" }

/-- A sibling record produced by `CreatorAnalyzer._find_sibling_contracts`
(before the health check). -/
structure SiblingBase where
  address : String
  creation_timestamp : Option Int
  creation_ts : Int
  tx_hash : String
  deriving DecidableEq, Repr

/-- `CreatorAnalyzer._find_sibling_contracts`: contract-creation transactions
(empty `to`, non-empty `contractAddress`) of the deployer, excluding the
target. -/
def findSiblingContracts (env : CreatorEnv) (deployer_address : String)
    (exclude_address : String) : List SiblingBase :=
  let txs := env.getTransactionHistory deployer_address 10000
  txs.filterMap (fun (tx : ChainTx) =>
    if tx.toAddr = "" ∧ tx.contractAddress ≠ "" ∧
       pyLower tx.contractAddress ≠ pyLower exclude_address then
      some ({ address := tx.contractAddress
              creation_timestamp := if tx.timeStamp ≠ 0 then some tx.timeStamp else none
              creation_ts := tx.timeStamp
              tx_hash := tx.hash } : SiblingBase)
    else none)

/-- The health fields set by `CreatorAnalyzer._check_sibling_health`.
`lifespan_days` is initialised to 0 there and — per the code comment — is
meant to "be set by the caller based on the sibling creation timestamp". -/
structure SiblingHealth where
  is_alive : Bool
  is_active : Bool
  lifespan_days : Int
  token_name : Option String
  token_symbol : Option String
  had_liquidity_removal : Bool
  last_tx_timestamp : Option Int
  deriving DecidableEq, Repr

/-- `CreatorAnalyzer._check_sibling_health`. -/
def checkSiblingHealth (env : CreatorEnv) (sibling_address : String) : SiblingHealth :=
  let code := env.getContractCode sibling_address
  let token_info := env.getTokenInfo sibling_address
  let recent_txs := env.getTransactionHistory sibling_address 5
  let (is_active, last_tx) :=
    match recent_txs with
    | [] => (false, (none : Option Int))
    | tx :: _ =>
      if tx.timeStamp ≠ 0 then
        (decide (env.now - tx.timeStamp < 30 * 86400), some tx.timeStamp)
      else (false, none)
  let had_removal := recent_txs.any (fun tx =>
    tx.input.length ≥ 10 ∧ removeLiquiditySigs.contains (pyLower (pyTake tx.input 10)))
  { is_alive := code.length > 2
    is_active := is_active
    lifespan_days := 0
    token_name := token_info.bind (fun t => t.name)
    token_symbol := token_info.bind (fun t => t.symbol)
    had_liquidity_removal := had_removal
    last_tx_timestamp := last_tx }

/-- Merge a sibling record with its health-check result
(`sibling.update(health)`). -/
def mergeSiblingHealth (s : SiblingBase) (h : SiblingHealth) : CheckedSibling :=
  { address := s.address
    creation_timestamp := s.creation_timestamp
    creation_ts := s.creation_ts
    tx_hash := s.tx_hash
    is_alive := h.is_alive
    is_active := h.is_active
    lifespan_days := h.lifespan_days
    token_name := h.token_name
    token_symbol := h.token_symbol
    had_liquidity_removal := h.had_liquidity_removal
    last_tx_timestamp := h.last_tx_timestamp }

/-- `CreatorAnalyzer._detect_funding_source_red_flags`. -/
def detectFundingSourceRedFlags (env : CreatorEnv) (blockchain : String)
    (deployer_address : String) : List RedFlag :=
  let mixers := knownMixerAddresses blockchain
  let first_txs := env.getFirstTransactions deployer_address 10
  match first_txs with
  | [] => [{ type := "no_history", severity := "high",
             description := "Deployer wallet has no transaction history" }]
  | tx :: _ =>
    let age_flags : List RedFlag :=
      if tx.timeStamp ≠ 0 then
        if env.now - tx.timeStamp < 86400 then
          [{ type := "brand_new_wallet", severity := "critical",
             description := "Deployer wallet was created less than 24 hours before deployment" }]
        else if env.now - tx.timeStamp < 7 * 86400 then
          [{ type := "very_new_wallet", severity := "high",
             description := "Deployer wallet is only " ++
               toString (Int.tdiv (env.now - tx.timeStamp) 86400) ++ " days old" }]
        else []
      else []
    let mixer_flags : List RedFlag :=
      match first_txs.find? (fun t => (lookupAssoc mixers (pyLower t.fromAddr)).isSome) with
      | some t =>
        [{ type := "mixer_funding", severity := "critical",
           description := "Deployer funded by " ++
             ((lookupAssoc mixers (pyLower t.fromAddr)).getD "") }]
      | none => []
    age_flags ++ mixer_flags

/-- `MAX_SIBLING_DEEP_CHECK`: rate-limit budget for deep sibling checks. -/
def MAX_SIBLING_DEEP_CHECK : Nat := 10

/-- Summary block of a successful creator trace.  The Python code additionally
stores `avg_sibling_lifespan_days` rounded to one decimal for display; it is
kept here as the exact rational mean. -/
structure CreatorSummary where
  total_siblings : Nat
  checked_siblings : Nat
  alive_siblings : Nat
  active_siblings : Nat
  dead_siblings : Nat
  avg_sibling_lifespan_days : ℚ
  deployer_is_serial : Bool
  deployer_is_factory : Bool
  deriving DecidableEq, Repr

/-- Result of `CreatorAnalyzer.analyze_creator`.  Keys that are absent from the
Python dict on the failure path are `Option`s. -/
structure CreatorResult where
  success : Bool
  contract_address : String
  blockchain : String
  error : Option String
  deployer : Option DeployerProfile
  sibling_contracts : List CheckedSibling
  red_flags : List RedFlag
  creator_trust_score : Option TrustScore
  summary : Option CreatorSummary

/-- Step 2 of `CreatorAnalyzer.analyze_creator`: factory indirection, bounded
to one hop.  Returns the effective deployer address and the `is_factory`
flag. -/
def resolveDeployer (env : CreatorEnv) (creator_info : CreatorInfo) : String × Bool :=
  let d0 := creator_info.deployer
  let is_factory0 := (env.getContractCode d0).length > 2
  if is_factory0 then
    match env.getContractCreator d0 with
    | some fc =>
      if fc.deployer ≠ "" ∧ (env.getContractCode fc.deployer).length ≤ 2 then
        (fc.deployer, false)
      else (d0, true)
    | none => (d0, true)
  else (d0, false)

/-- `CreatorAnalyzer.analyze_creator`: the full trace. -/
def analyzeCreator (env : CreatorEnv) (blockchain : String)
    (contract_address : String) : CreatorResult :=
  match env.getContractCreator contract_address with
  | none =>
    { success := false
      contract_address := contract_address
      blockchain := blockchain
      error := some "Could not find contract creator. The contract may predate explorer tracking."
      deployer := none
      sibling_contracts := []
      red_flags := []
      creator_trust_score := none
      summary := none }
  | some creator_info =>
    -- Step 2: factory indirection (one hop at most)
    let deployer_address := (resolveDeployer env creator_info).1
    let is_factory := (resolveDeployer env creator_info).2
    -- Step 3: deployer profile
    let profile0 := getDeployerProfile env blockchain deployer_address
    let profile := { profile0 with
      is_factory := is_factory
      creation_tx_hash := creator_info.creation_tx_hash }
    -- Step 4: siblings
    let siblings := findSiblingContracts env deployer_address contract_address
    -- Step 5: deep-check the first MAX_SIBLING_DEEP_CHECK siblings
    let checked_siblings := (siblings.take MAX_SIBLING_DEEP_CHECK).map
      (fun s => mergeSiblingHealth s (checkSiblingHealth env s.address))
    -- Step 6: funding red flags
    let red_flags := detectFundingSourceRedFlags env blockchain deployer_address
    -- Step 7: trust score
    let trust_score := calculateCreatorTrustScore profile checked_siblings red_flags env.now
    let alive_count := (checked_siblings.filter (fun s => s.is_alive)).length
    let active_count := (checked_siblings.filter (fun s => s.is_active)).length
    let lifespans := (checked_siblings.filter (fun s => s.lifespan_days ≠ 0)).map
      (fun s => s.lifespan_days)
    let avg_lifespan : ℚ :=
      if lifespans ≠ [] then (lifespans.sum : ℚ) / (lifespans.length : ℚ) else 0
    { success := true
      contract_address := contract_address
      blockchain := blockchain
      error := none
      deployer := some profile
      sibling_contracts := checked_siblings
      red_flags := red_flags
      creator_trust_score := some trust_score
      summary := some
        { total_siblings := siblings.length
          checked_siblings := checked_siblings.length
          alive_siblings := alive_count
          active_siblings := active_count
          dead_siblings := checked_siblings.length - alive_count
          avg_sibling_lifespan_days := avg_lifespan
          deployer_is_serial := siblings.length > 5
          deployer_is_factory := is_factory } }

/-! ## EVM analyzer: contract analysis skeleton -/

/-- Verified-source payload returned by `EVMClient.get_contract_source_code`. -/
structure SourceData where
  source_code : String
  contract_name : String
  compiler_version : String
  optimization_used : Bool
  license_type : String
  deriving DecidableEq, Repr

/-- Output of `EVMAnalyzer._analyze_code_quality` (kept abstract in the
environment below; the aggregator only reads it back through
`CodeQualitySection`). -/
structure CodeQualityInfo where
  compiler_version : String
  optimization_enabled : Bool
  license : String
  score : Int
  modern_compiler : Option Bool
  deriving DecidableEq, Repr

/-- Does the character list start with `pat`? (helper for Python `in` on
strings). -/
def listStartsWith : List Char → List Char → Bool
  | [], _ => true
  | _ :: _, [] => false
  | a :: as, b :: bs => a = b && listStartsWith as bs

/-- Does the character list contain `pat` as a contiguous run? (Python
`pat in s`). -/
def listHasInfix (pat : List Char) : List Char → Bool
  | [] => listStartsWith pat []
  | b :: bs => listStartsWith pat (b :: bs) || listHasInfix pat bs

/-- Python `pat in s` on strings. -/
def strContains (s pat : String) : Bool := listHasInfix pat.toList s.toList

/-- `EVMAnalyzer._analyze_bytecode`: textual `ff` substring check (SELFDESTRUCT
opcode heuristic) and the 24 KB size check. -/
def analyzeBytecode (bytecode : String) : List RiskSignal :=
  let issues : List RiskSignal :=
    if strContains (pyLower bytecode) "ff" then
      [{ type := "selfdestruct_opcode", severity := "medium",
         description := "Contract contains SELFDESTRUCT opcode", location := none }]
    else []
  let bytecode_size := bytecode.length / 2
  issues ++
    (if bytecode_size > 24576 then
      [{ type := "large_bytecode", severity := "low",
         description := "Contract bytecode is very large (" ++
           toString bytecode_size ++ " bytes)", location := none }]
     else [])

/-- The chain-data provider and in-module regex analyzers as seen by
`EVMAnalyzer.analyze_contract`.  `sourceScan` models
`_analyze_source_code` and `codeQualityOf` models `_analyze_code_quality`;
both are regex-driven and kept abstract here — no claim in this development
depends on their values, only on where their outputs are routed. -/
structure EVMEnv where
  isValidAddress : String → Bool
  getContractSourceCode : String → Option SourceData
  getContractCode : String → String
  getTokenInfo : String → Option TokenInfo
  sourceScan : String → List RiskSignal
  codeQualityOf : SourceData → CodeQualityInfo

/-- Result dict of `EVMAnalyzer.analyze_contract`, restricted to the keys the
claims are about.  On the invalid-address early return the Python dict carries
only `error` and `contract_address`; the list fields are modelled as empty. -/
structure ContractAnalysisResult where
  contract_address : String
  error : Option String
  is_verified : Bool
  source_code : Option String
  code_quality : Option CodeQualityInfo
  vulnerabilities : List RiskSignal
  warnings : List WarningEntry
  has_code : Option Bool
  token_info : Option TokenInfo

/-- The `unverified_contract` warning entry appended by
`EVMAnalyzer.analyze_contract` when no verified source is found. -/
def unverifiedContractWarning : WarningEntry :=
  { type := "unverified_contract", severity := "high",
    message := "Contract source code is not verified on the block explorer" }

/-- `EVMAnalyzer.analyze_contract` (token lookup, timing and printing aside). -/
def analyzeContract (env : EVMEnv) (contract_address : String) : ContractAnalysisResult :=
  if ¬ env.isValidAddress contract_address then
    { contract_address := contract_address
      error := some "Invalid contract address"
      is_verified := false, source_code := none, code_quality := none
      vulnerabilities := [], warnings := [], has_code := none, token_info := none }
  else
    let (is_verified, source_code, code_quality, vulnerabilities, warnings) :=
      match env.getContractSourceCode contract_address with
      | some sd =>
        (true, some sd.source_code, some (env.codeQualityOf sd),
         env.sourceScan sd.source_code, ([] : List WarningEntry))
      | none =>
        (false, none, none, [], [unverifiedContractWarning])
    let bytecode := env.getContractCode contract_address
    if bytecode ≠ "" ∧ bytecode ≠ "0x" then
      { contract_address := pyLower contract_address
        error := none
        is_verified := is_verified
        source_code := source_code
        code_quality := code_quality
        vulnerabilities := vulnerabilities ++ analyzeBytecode bytecode
        warnings := warnings
        has_code := some true
        token_info := env.getTokenInfo contract_address }
    else
      { contract_address := pyLower contract_address
        error := some "No contract code found at this address"
        is_verified := is_verified
        source_code := source_code
        code_quality := code_quality
        vulnerabilities := vulnerabilities
        warnings := warnings
        has_code := some false
        token_info := none }

/-! ## Interaction graph engine -/

/-- A transaction as consumed by `InteractionAnalyzer._build_graph`
(`from`, `to`, `value` — the value already converted with `int(...)`, in wei). -/
structure GraphTx where
  fromAddr : String
  toAddr : String
  value : Int
  deriving DecidableEq, Repr

/-- One accumulated edge of the interaction graph: key `(source, target)`,
payload count / total value / transaction-type set (kept as an
insertion-ordered duplicate-free list). -/
structure EdgeCell where
  source : String
  target : String
  count : Int
  total_value : ℚ
  types : List String
  deriving DecidableEq, Repr

/-- The update applied to an existing edge cell when one more transaction
accumulates on its key (`count += 1`, value and type-set updates). -/
def bumpEdge (e : EdgeCell) (v : ℚ) (ty : String) (addValue : Bool) : EdgeCell :=
  { e with
    count := e.count + 1
    total_value := if addValue then e.total_value + v else e.total_value
    types := if e.types.contains ty then e.types else e.types ++ [ty] }

/-- Accumulate one transaction into the edge map
(`edge_data[edge_key]["count"] += 1` etc.; insertion order preserved).
`addValue` distinguishes the token stream, which does not accumulate value. -/
def addTxToEdges (edges : List EdgeCell) (f t : String) (v : ℚ) (ty : String)
    (addValue : Bool) : List EdgeCell :=
  if edges.any (fun e => e.source = f ∧ e.target = t) then
    edges.map (fun e =>
      if e.source = f ∧ e.target = t then bumpEdge e v ty addValue else e)
  else
    edges ++ [{ source := f, target := t, count := 1,
                total_value := if addValue then v else 0, types := [ty] }]

/-- Process one transaction stream (`normal` / `internal` / `token`) into the
edge map, skipping transactions with an empty `from` or `to` and lowercasing
addresses, exactly as the three loops of `_build_graph` do. -/
def processTxStream (edges : List EdgeCell) (txns : List GraphTx) (ty : String)
    (addValue : Bool) : List EdgeCell :=
  txns.foldl (fun acc tx =>
    let f := pyLower tx.fromAddr
    let t := pyLower tx.toAddr
    if f = "" ∨ t = "" then acc
    else addTxToEdges acc f t ((tx.value : ℚ) / 1000000000000000000) ty addValue) edges

/-- Append an address to a node list if not already present (set semantics,
first-occurrence order). -/
def addNode (acc : List String) (a : String) : List String :=
  if acc.contains a then acc else acc ++ [a]

/-- The node set of the graph: every endpoint of every accumulated edge
(`all_addresses` in `_build_graph`). -/
def collectNodes (edges : List EdgeCell) : List String :=
  edges.foldl (fun acc e => addNode (addNode acc e.source) e.target) []

/-- The interaction graph: nodes and weighted edges.  Node display labels are
recomputed from the static table where needed and are not stored here. -/
structure IGraph where
  nodes : List String
  edges : List EdgeCell
  deriving DecidableEq, Repr

/-- The `stats` dict computed alongside the graph in `_build_graph`. -/
structure GraphStats where
  total_transactions : Nat
  normal_count : Nat
  internal_count : Nat
  token_transfers : Nat
  unique_addresses : Nat
  total_value_in : ℚ
  total_value_out : ℚ
  edge_count : Nat
  deriving DecidableEq, Repr

/-- Is the transaction kept by the loops of `_build_graph` (non-empty `from`
and `to` after lowercasing)? -/
def txKept (tx : GraphTx) : Bool := pyLower tx.fromAddr ≠ "" ∧ pyLower tx.toAddr ≠ ""

/-- `InteractionAnalyzer._build_graph`. -/
def buildGraph (center_address : String) (normal_txns internal_txns token_txns :
    List GraphTx) : IGraph × GraphStats :=
  let center := pyLower center_address
  let edges := processTxStream [] normal_txns "normal" true
  let edges := processTxStream edges internal_txns "internal" true
  let edges := processTxStream edges token_txns "token" false
  let nodes := collectNodes edges
  let total_value_in : ℚ :=
    ((normal_txns.filter (fun tx => txKept tx ∧ pyLower tx.toAddr = center)).map
      (fun tx => (tx.value : ℚ) / 1000000000000000000)).sum
  let total_value_out : ℚ :=
    ((normal_txns.filter (fun tx => txKept tx ∧ pyLower tx.fromAddr = center)).map
      (fun tx => (tx.value : ℚ) / 1000000000000000000)).sum
  (⟨nodes, edges⟩,
   { total_transactions := normal_txns.length + internal_txns.length + token_txns.length
     normal_count := normal_txns.length
     internal_count := (internal_txns.filter txKept).length
     token_transfers := (token_txns.filter txKept).length
     unique_addresses := nodes.length
     total_value_in := total_value_in
     total_value_out := total_value_out
     edge_count := edges.length })

/-- `KNOWN_ADDRESSES` per-chain table (address, label), ethereum entries. -/
def knownAddressesEthereum : List (String × String) :=
  [("0x0000000000000000000000000000000000000000", "Null Address"),
   ("0x000000000000000000000000000000000000dead", "Burn Address"),
   ("0x7a250d5630b4cf539739df2c5dacb4c659f2488d", "Uniswap V2 Router"),
   ("0xe592427a0aece92de3edee1f18e0157c05861564", "Uniswap V3 Router"),
   ("0x68b3465833fb72a70ecdf485e0e4c7bd8665fc45", "Uniswap Universal Router"),
   ("0xd9e1ce17f2641f24ae83637ab66a2cca9c378b9f", "SushiSwap Router"),
   ("0xdef1c0ded9bec7f1a1670819833240f027b25eff", "0x Exchange Proxy"),
   ("0x3fc91a3afd70395cd496c647d5a6cc9d4b2b7fad", "Uniswap Universal Router V2"),
   ("0xc02aaa39b223fe8d0a0e5c4f27ead9083c756cc2", "WETH"),
   ("0xdac17f958d2ee523a2206206994597c13d831ec7", "USDT"),
   ("0xa0b86991c6218b36c1d19d4a2e9eb0ce3606eb48", "USDC"),
   ("0x6b175474e89094c44da98b954eedeac495271d0f", "DAI")]

/-- `KNOWN_ADDRESSES` per-chain table. -/
def knownAddresses (blockchain : String) : List (String × String) :=
  if blockchain = "ethereum" then knownAddressesEthereum
  else if blockchain = "bsc" then
    [("0x0000000000000000000000000000000000000000", "Null Address"),
     ("0x000000000000000000000000000000000000dead", "Burn Address"),
     ("0x10ed43c718714eb63d5aa57b78b54704e256024e", "PancakeSwap Router"),
     ("0xbb4cdb9cbd36b01bd1cbaebf2de08d9173bc095c", "WBNB")]
  else if blockchain = "polygon" then
    [("0x0000000000000000000000000000000000000000", "Null Address"),
     ("0xa5e0829caced8ffdd4de3c43696c57f7d7a678ff", "QuickSwap Router"),
     ("0x0d500b1d8e8ef31e21c99d1db9a6444d3adf1270", "WMATIC")]
  else []

/-- `known.get(node, known.get(to_checksum_safe(node), ""))`.  The checksum
conversion is an external library call, passed in as `checksum`. -/
def nodeLabel (blockchain : String) (checksum : String → String) (addr : String) : String :=
  match lookupAssoc (knownAddresses blockchain) addr with
  | some l => l
  | none => (lookupAssoc (knownAddresses blockchain) (checksum addr)).getD ""

/-- All injective sequences of the given length drawn from `nodes`. -/
def injSeqs (nodes : List String) : Nat → List (List String)
  | 0 => [[]]
  | Nat.succ k =>
    (injSeqs nodes k).flatMap (fun s =>
      (nodes.filter (fun v => ¬ s.contains v)).map (fun v => v :: s))

/-- Is there an edge `a → b` in the graph? -/
def hasEdge (g : IGraph) (a b : String) : Bool :=
  g.edges.any (fun e => e.source = a ∧ e.target = b)

/-- Is the (duplicate-free) node sequence a directed cycle of the graph? -/
def isCycleSeq (g : IGraph) (c : List String) : Bool :=
  match c with
  | [] => false
  | _ :: _ => (c.zip (c.rotate 1)).all (fun p => hasEdge g p.1 p.2)

/-- Existence of a simple directed cycle visiting between 2 and 5 nodes —
the condition under which `_detect_patterns` finds a non-empty
`short_cycles` list from `nx.simple_cycles`. -/
def hasShortCycle (g : IGraph) : Bool :=
  [2, 3, 4, 5].any (fun k => (injSeqs g.nodes k).any (fun c => isCycleSeq g c))

/-- Substrings that mark a label as a decentralised exchange in
`_detect_patterns`. -/
def dexMarkers : List String :=
  ["uniswap", "sushiswap", "pancakeswap", "quickswap", "router", "exchange"]

/-- `InteractionAnalyzer._detect_patterns`, reduced to the ordered list of
pattern types it appends (severity/description strings are presentational).
`checksum` is the external checksum-conversion function used by the label
lookups. -/
def detectPatterns (blockchain : String) (checksum : String → String)
    (g : IGraph) (center : String) : List String :=
  if g.nodes.length < 2 then []
  else
    let circular : List String := if hasShortCycle g then ["circular_flow"] else []
    let in_edges := g.edges.filter (fun e => e.target = center)
    let concentration : List String :=
      if g.nodes.contains center ∧ in_edges ≠ [] then
        let total_in : Int := (in_edges.map (fun e => e.count)).sum
        let max_w : Int := (in_edges.map (fun e => e.count)).foldl max 0
        -- `max_ratio > 0.5 and total_in > 5` on exact values
        if 2 * max_w > total_in ∧ total_in > 5 then ["high_concentration"] else []
      else []
    let dex : List String :=
      if g.nodes.any (fun n =>
          dexMarkers.any (fun m => strContains (pyLower (nodeLabel blockchain checksum n)) m)) then
        ["dex_activity"]
      else []
    let pass : List String :=
      if g.nodes.contains center then
        let in_count := (g.edges.filter (fun e => e.target = center)).length
        let out_count := (g.edges.filter (fun e => e.source = center)).length
        -- `min/max > 0.7` on exact values
        if in_count > 3 ∧ out_count > 3 ∧
           10 * min in_count out_count > 7 * max in_count out_count then
          ["pass_through"]
        else []
      else []
    let burn : List String :=
      if g.nodes.contains "0x0000000000000000000000000000000000000000" ∨
         g.nodes.contains "0x000000000000000000000000000000000000dead" then
        ["burn_activity"]
      else []
    circular ++ concentration ++ dex ++ pass ++ burn

/-! ## Tokenomics analyzer: scoring -/

/-- The `fees` dict of a tokenomics analysis (`_analyze_fees` output).
`none` models a fee the regex pass did not find (stored as Python `None`). -/
structure TokenomicsFees where
  buy_fee : Option Int
  sell_fee : Option Int
  transfer_fee : Option Int
  is_modifiable : Bool
  deriving DecidableEq, Repr

/-- A tokenomics analysis result, restricted to the keys read by
`TokenomicsAnalyzer._calculate_tokenomics_score`.  `max_transaction_limit`
is stored by the Python code as `True` or `None` and only its truthiness is
read, hence `Bool`. -/
structure TokenomicsAnalysis where
  fees : TokenomicsFees
  burn_mechanism : Bool
  mint_mechanism : Bool
  pausable : Bool
  blacklist_mechanism : Bool
  max_transaction_limit : Bool
  cooldown_mechanism : Bool
  deriving DecidableEq, Repr

/-- `TokenomicsAnalyzer._calculate_tokenomics_score`.  `red_flags` and
`warnings` are the analyzer-instance lists (`self.red_flags`,
`self.warnings`) accumulated by the mechanism checks; the two membership
tests are exact string comparisons, as in Python. -/
def calculateTokenomicsScore (analysis : TokenomicsAnalysis)
    (red_flags warnings : List String) : Int :=
  -- `fees.get('buy_fee', 0) or 0`
  let buy_fee := analysis.fees.buy_fee.getD 0
  let sell_fee := analysis.fees.sell_fee.getD 0
  let score : Int := 0
  let score :=
    if buy_fee ≤ 500 ∧ sell_fee ≤ 500 then score + 5
    else if buy_fee ≤ 1000 ∧ sell_fee ≤ 1000 then score + 3
    else if buy_fee ≤ 1500 ∧ sell_fee ≤ 1500 then score + 1
    else score
  let score := if ¬ analysis.fees.is_modifiable then score + 3 else score + 1
  let score := if ¬ analysis.blacklist_mechanism then score + 4 else score
  let score :=
    if ¬ analysis.mint_mechanism then score + 4
    else if ¬ red_flags.contains "Mint function may lack proper access control" then score + 2
    else score
  let score :=
    if ¬ analysis.max_transaction_limit then score + 2
    else if ¬ warnings.contains "Maximum transaction limit can be modified" then score + 1
    else score
  let score := if ¬ analysis.pausable then score + 2 else score
  min score 20

/-! ## Concrete environments used by the closed theorems below -/

/-- A creator-trace environment: target `0xtoken`, EOA deployer `0xdep` with
one sibling contract `0xsib` created at epoch second 1000000 whose last
observed transaction is at epoch second 1864000 (10 days later); the clock
reads 2000000. -/
def envC8 : CreatorEnv :=
  { now := 2000000
    getContractCreator := fun a =>
      if a = "0xtoken" then some ⟨"0xdep", "0xcreatehash"⟩ else none
    getContractCode := fun a => if a = "0xsib" then "0x6001" else "0x"
    getFirstTransactions := fun _ _ =>
      [{ fromAddr := "0xfunder", toAddr := "0xdep", value := 5, timeStamp := 100,
         contractAddress := "", hash := "0xh0", input := "" }]
    getBalance := fun _ => 0
    getTransactionCount := fun _ => 3
    getTransactionHistory := fun a _ =>
      if a = "0xdep" then
        [{ fromAddr := "0xdep", toAddr := "", value := 0, timeStamp := 1000000,
           contractAddress := "0xsib", hash := "0xh1", input := "" }]
      else if a = "0xsib" then
        [{ fromAddr := "0xuser", toAddr := "0xsib", value := 0, timeStamp := 1864000,
           contractAddress := "", hash := "0xh2", input := "0x" }]
      else []
    getTokenInfo := fun _ => none }

/-- A creator-trace environment whose deployer has 50 sibling-creation
transactions (besides the target), used to exercise the deep-check cap. -/
def envFifty : CreatorEnv :=
  { now := 2000000
    getContractCreator := fun a =>
      if a = "0xtoken" then some ⟨"0xdep", "0xcreatehash"⟩ else none
    getContractCode := fun _ => "0x"
    getFirstTransactions := fun _ _ => []
    getBalance := fun _ => 0
    getTransactionCount := fun _ => 0
    getTransactionHistory := fun a _ =>
      if a = "0xdep" then
        List.replicate 50
          { fromAddr := "0xdep", toAddr := "", value := 0, timeStamp := 1000000,
            contractAddress := "0xsib", hash := "0xh1", input := "" }
      else []
    getTokenInfo := fun _ => none }

/-- An EVM-analysis environment for an unverified contract with benign
bytecode (no `ff` run, small). -/
def envUnverified : EVMEnv :=
  { isValidAddress := fun _ => true
    getContractSourceCode := fun _ => none
    getContractCode := fun _ => "0x6001"
    getTokenInfo := fun _ => none
    sourceScan := fun _ => []
    codeQualityOf := fun _ =>
      { compiler_version := "", optimization_enabled := false, license := "",
        score := 0, modern_compiler := none } }

/-- A concrete analysis-results record used to witness the aggregator range
theorem. -/
def sampleAnalysis : AnalysisResults :=
  { is_verified := true
    code_quality := { score := some 18, modern_compiler := true,
                      compiler_version := "v0.8.19", optimization_enabled := true,
                      license := "MIT" }
    vulnerabilities := [{ type := "unchecked_send", severity := "medium",
                          description := "Unchecked send: Return value not checked",
                          location := some 5 }]
    tokenomics := { score := none, red_flags := ["flag"], warnings := [] }
    liquidity := { is_locked := true, lock_duration_days := 200, lock_percentage := 80 } }

/-! ## Helper lemmas -/

lemma severityDeduction_nonneg (s : String) : 0 ≤ severityDeduction s := by
  unfold severityDeduction
  split_ifs <;> omega

lemma deductions_sum_nonneg (vulnerabilities : List RiskSignal) :
    0 ≤ (vulnerabilities.map (fun v => severityDeduction v.severity)).sum := by
  apply List.sum_nonneg
  intro x hx
  obtain ⟨v, _, rfl⟩ := List.mem_map.mp hx
  exact severityDeduction_nonneg v.severity

lemma calculateSecurityScore_bounds (vulnerabilities : List RiskSignal) :
    0 ≤ calculateSecurityScore vulnerabilities ∧
      calculateSecurityScore vulnerabilities ≤ 40 := by
  have h := deductions_sum_nonneg vulnerabilities
  unfold calculateSecurityScore
  split_ifs <;> simp <;> omega

lemma calculateCodeQualityScore_bounds (is_verified : Bool) (cq : CodeQualitySection)
    (h : ∀ s, cq.score = some s → 0 ≤ s ∧ s ≤ 25) :
    0 ≤ calculateCodeQualityScore is_verified cq ∧
      calculateCodeQualityScore is_verified cq ≤ 25 := by
  cases hsc : cq.score with
  | some s => simpa [calculateCodeQualityScore, hsc] using h s hsc
  | none =>
    simp only [calculateCodeQualityScore, hsc]
    split_ifs <;> simp

lemma aggregatorTokenomicsScore_bounds (t : TokenomicsSection)
    (h : ∀ s, t.score = some s → 0 ≤ s ∧ s ≤ 20) :
    0 ≤ aggregatorTokenomicsScore t ∧ aggregatorTokenomicsScore t ≤ 20 := by
  cases hsc : t.score with
  | some s => simpa [aggregatorTokenomicsScore, hsc] using h s hsc
  | none =>
    have h1 : (0 : Int) ≤ t.red_flags.length := Int.ofNat_nonneg _
    have h2 : (0 : Int) ≤ t.warnings.length := Int.ofNat_nonneg _
    simp only [aggregatorTokenomicsScore, hsc]
    refine ⟨by simp, by simp; omega⟩

lemma calculateLiquidityScore_bounds (l : LiquiditySection) :
    0 ≤ calculateLiquidityScore l ∧ calculateLiquidityScore l ≤ 15 := by
  simp only [calculateLiquidityScore]
  split_ifs <;> simp

lemma pyRoundDiv_le_25 (n d : Nat) (hd : 0 < d) (h : n ≤ 25 * d) :
    pyRoundDiv n d ≤ 25 := by
  have hdm := Nat.div_add_mod n d
  have hmod : n % d < d := Nat.mod_lt n hd
  have hq : n / d ≤ 25 := by
    have h1 : n / d ≤ 25 * d / d := Nat.div_le_div_right h
    rwa [Nat.mul_div_cancel 25 hd] at h1
  by_cases h25 : n / d = 25
  · rw [h25] at hdm
    unfold pyRoundDiv
    split_ifs <;> omega
  · have hq24 : n / d ≤ 24 := by omega
    unfold pyRoundDiv
    split_ifs <;> omega

lemma walletMaturityScore_bounds (age_days : Int) :
    0 ≤ walletMaturityScore age_days ∧ walletMaturityScore age_days ≤ 20 := by
  unfold walletMaturityScore
  split_ifs <;> omega

lemma deploymentHistoryScore_bounds (siblings : List CheckedSibling) (now : Int) :
    0 ≤ deploymentHistoryScore siblings now ∧
      deploymentHistoryScore siblings now ≤ 30 := by
  simp only [deploymentHistoryScore]
  have hd : (0 : Int) ≤ ((siblings.filter (fun s => ¬ s.is_alive)).length : Int) :=
    Int.ofNat_nonneg _
  split_ifs <;> omega

lemma siblingSurvivalScore_bounds (siblings : List CheckedSibling) :
    0 ≤ siblingSurvivalScore siblings ∧ siblingSurvivalScore siblings ≤ 25 := by
  simp only [siblingSurvivalScore]
  split_ifs with hlen
  · omega
  · have hle : (siblings.filter (fun s => s.is_alive)).length ≤ siblings.length :=
      List.length_filter_le _ _
    have hpr : pyRoundDiv ((siblings.filter (fun s => s.is_alive)).length * 25)
        siblings.length ≤ 25 := by
      apply pyRoundDiv_le_25 _ _ (Nat.pos_of_ne_zero hlen)
      omega
    have hpr2 : ((pyRoundDiv ((siblings.filter (fun s => s.is_alive)).length * 25)
        siblings.length : Nat) : Int) ≤ 25 := by exact_mod_cast hpr
    have hlp : (0 : Int) ≤
        ((siblings.filter (fun s => s.had_liquidity_removal)).length : Int) :=
      Int.ofNat_nonneg _
    omega

lemma foldl_transparencyStep_le (red_flags : List RedFlag) :
    ∀ acc : Int, red_flags.foldl transparencyStep acc ≤ acc := by
  induction red_flags with
  | nil => intro acc; simp
  | cons f fs ih =>
    intro acc
    have h1 : fs.foldl transparencyStep (transparencyStep acc f) ≤ transparencyStep acc f :=
      ih _
    have h2 : transparencyStep acc f ≤ acc := by
      unfold transparencyStep; split_ifs <;> omega
    calc (f :: fs).foldl transparencyStep acc
        = fs.foldl transparencyStep (transparencyStep acc f) := by simp [List.foldl]
      _ ≤ acc := le_trans h1 h2

lemma fundingTransparencyScore_bounds (red_flags : List RedFlag) :
    0 ≤ fundingTransparencyScore red_flags ∧
      fundingTransparencyScore red_flags ≤ 15 := by
  unfold fundingTransparencyScore
  have h := foldl_transparencyStep_le red_flags 15
  omega

lemma behavioralPatternsScore_bounds (siblings : List CheckedSibling) :
    0 ≤ behavioralPatternsScore siblings ∧ behavioralPatternsScore siblings ≤ 10 := by
  simp only [behavioralPatternsScore]
  have hd : (0 : Int) ≤ ((siblings.filter
      (fun s => s.had_liquidity_removal ∧ s.lifespan_days < 14)).length : Int) :=
    Int.ofNat_nonneg _
  split_ifs <;> omega

/-! ## Claim theorems -/

/-- C1: for every analysis input (with pass-through sub-scores, when present,
coming from the repository analyzers and hence within their documented
ranges), every sub-score of the aggregator `ScoreBreakdown` and of the
`CreatorTrustScore` lies within its documented range, and the overall score
equals `clamp(sum of the sub-scores, 0, 100)`. -/
theorem C1_scores_in_range_and_clamped
    (analysis : AnalysisResults)
    (hcq : ∀ s, analysis.code_quality.score = some s → 0 ≤ s ∧ s ≤ 25)
    (htok : ∀ s, analysis.tokenomics.score = some s → 0 ≤ s ∧ s ≤ 20)
    (deployer : DeployerProfile) (siblings : List CheckedSibling)
    (red_flags : List RedFlag) (now : Int) :
    ((0 ≤ (calculateScore analysis).code_quality_score ∧
        (calculateScore analysis).code_quality_score ≤ 25) ∧
      (0 ≤ (calculateScore analysis).security_score ∧
        (calculateScore analysis).security_score ≤ 40) ∧
      (0 ≤ (calculateScore analysis).tokenomics_score ∧
        (calculateScore analysis).tokenomics_score ≤ 20) ∧
      (0 ≤ (calculateScore analysis).liquidity_score ∧
        (calculateScore analysis).liquidity_score ≤ 15) ∧
      (calculateScore analysis).overall_score =
        clampInt 0 100
          ((calculateScore analysis).code_quality_score +
            (calculateScore analysis).security_score +
            (calculateScore analysis).tokenomics_score +
            (calculateScore analysis).liquidity_score)) ∧
    ((0 ≤ (calculateCreatorTrustScore deployer siblings red_flags now).wallet_maturity_score ∧
        (calculateCreatorTrustScore deployer siblings red_flags now).wallet_maturity_score ≤ 20) ∧
      (0 ≤ (calculateCreatorTrustScore deployer siblings red_flags now).deployment_history_score ∧
        (calculateCreatorTrustScore deployer siblings red_flags now).deployment_history_score ≤ 30) ∧
      (0 ≤ (calculateCreatorTrustScore deployer siblings red_flags now).sibling_survival_score ∧
        (calculateCreatorTrustScore deployer siblings red_flags now).sibling_survival_score ≤ 25) ∧
      (0 ≤ (calculateCreatorTrustScore deployer siblings red_flags now).funding_transparency_score ∧
        (calculateCreatorTrustScore deployer siblings red_flags now).funding_transparency_score ≤ 15) ∧
      (0 ≤ (calculateCreatorTrustScore deployer siblings red_flags now).behavioral_patterns_score ∧
        (calculateCreatorTrustScore deployer siblings red_flags now).behavioral_patterns_score ≤ 10) ∧
      (calculateCreatorTrustScore deployer siblings red_flags now).overall_score =
        clampInt 0 100
          ((calculateCreatorTrustScore deployer siblings red_flags now).wallet_maturity_score +
            (calculateCreatorTrustScore deployer siblings red_flags now).deployment_history_score +
            (calculateCreatorTrustScore deployer siblings red_flags now).sibling_survival_score +
            (calculateCreatorTrustScore deployer siblings red_flags now).funding_transparency_score +
            (calculateCreatorTrustScore deployer siblings red_flags now).behavioral_patterns_score)) := by
  have h1 := calculateCodeQualityScore_bounds analysis.is_verified analysis.code_quality hcq
  have h2 := calculateSecurityScore_bounds analysis.vulnerabilities
  have h3 := aggregatorTokenomicsScore_bounds analysis.tokenomics htok
  have h4 := calculateLiquidityScore_bounds analysis.liquidity
  have h5 := walletMaturityScore_bounds deployer.wallet_age_days
  have h6 := deploymentHistoryScore_bounds siblings now
  have h7 := siblingSurvivalScore_bounds siblings
  have h8 := fundingTransparencyScore_bounds red_flags
  have h9 := behavioralPatternsScore_bounds siblings
  have e1 : (calculateScore analysis).code_quality_score =
      calculateCodeQualityScore analysis.is_verified analysis.code_quality := rfl
  have e2 : (calculateScore analysis).security_score =
      calculateSecurityScore analysis.vulnerabilities := rfl
  have e3 : (calculateScore analysis).tokenomics_score =
      aggregatorTokenomicsScore analysis.tokenomics := rfl
  have e4 : (calculateScore analysis).liquidity_score =
      calculateLiquidityScore analysis.liquidity := rfl
  have e5 : (calculateScore analysis).overall_score =
      calculateCodeQualityScore analysis.is_verified analysis.code_quality +
        calculateSecurityScore analysis.vulnerabilities +
        aggregatorTokenomicsScore analysis.tokenomics +
        calculateLiquidityScore analysis.liquidity := rfl
  have f1 : (calculateCreatorTrustScore deployer siblings red_flags now).wallet_maturity_score =
      walletMaturityScore deployer.wallet_age_days := rfl
  have f2 : (calculateCreatorTrustScore deployer siblings red_flags now).deployment_history_score =
      deploymentHistoryScore siblings now := rfl
  have f3 : (calculateCreatorTrustScore deployer siblings red_flags now).sibling_survival_score =
      siblingSurvivalScore siblings := rfl
  have f4 : (calculateCreatorTrustScore deployer siblings red_flags now).funding_transparency_score =
      fundingTransparencyScore red_flags := rfl
  have f5 : (calculateCreatorTrustScore deployer siblings red_flags now).behavioral_patterns_score =
      behavioralPatternsScore siblings := rfl
  have f6 : (calculateCreatorTrustScore deployer siblings red_flags now).overall_score =
      max 0 (min 100 (walletMaturityScore deployer.wallet_age_days +
        deploymentHistoryScore siblings now + siblingSurvivalScore siblings +
        fundingTransparencyScore red_flags + behavioralPatternsScore siblings)) := rfl
  simp only [clampInt]
  omega

/-- C1 witness: a concrete analysis input and creator-trace inputs evaluated
through the theorem. -/
theorem C1_scores_in_range_and_clamped_witness :
    ((0 ≤ (calculateScore sampleAnalysis).code_quality_score ∧
        (calculateScore sampleAnalysis).code_quality_score ≤ 25) ∧
      (0 ≤ (calculateScore sampleAnalysis).security_score ∧
        (calculateScore sampleAnalysis).security_score ≤ 40) ∧
      (0 ≤ (calculateScore sampleAnalysis).tokenomics_score ∧
        (calculateScore sampleAnalysis).tokenomics_score ≤ 20) ∧
      (0 ≤ (calculateScore sampleAnalysis).liquidity_score ∧
        (calculateScore sampleAnalysis).liquidity_score ≤ 15) ∧
      (calculateScore sampleAnalysis).overall_score =
        clampInt 0 100
          ((calculateScore sampleAnalysis).code_quality_score +
            (calculateScore sampleAnalysis).security_score +
            (calculateScore sampleAnalysis).tokenomics_score +
            (calculateScore sampleAnalysis).liquidity_score)) ∧
    ((0 ≤ (calculateCreatorTrustScore (getDeployerProfile envC8 "ethereum" "0xdep") [] [] 2000000).wallet_maturity_score ∧
        (calculateCreatorTrustScore (getDeployerProfile envC8 "ethereum" "0xdep") [] [] 2000000).wallet_maturity_score ≤ 20) ∧
      (0 ≤ (calculateCreatorTrustScore (getDeployerProfile envC8 "ethereum" "0xdep") [] [] 2000000).deployment_history_score ∧
        (calculateCreatorTrustScore (getDeployerProfile envC8 "ethereum" "0xdep") [] [] 2000000).deployment_history_score ≤ 30) ∧
      (0 ≤ (calculateCreatorTrustScore (getDeployerProfile envC8 "ethereum" "0xdep") [] [] 2000000).sibling_survival_score ∧
        (calculateCreatorTrustScore (getDeployerProfile envC8 "ethereum" "0xdep") [] [] 2000000).sibling_survival_score ≤ 25) ∧
      (0 ≤ (calculateCreatorTrustScore (getDeployerProfile envC8 "ethereum" "0xdep") [] [] 2000000).funding_transparency_score ∧
        (calculateCreatorTrustScore (getDeployerProfile envC8 "ethereum" "0xdep") [] [] 2000000).funding_transparency_score ≤ 15) ∧
      (0 ≤ (calculateCreatorTrustScore (getDeployerProfile envC8 "ethereum" "0xdep") [] [] 2000000).behavioral_patterns_score ∧
        (calculateCreatorTrustScore (getDeployerProfile envC8 "ethereum" "0xdep") [] [] 2000000).behavioral_patterns_score ≤ 10) ∧
      (calculateCreatorTrustScore (getDeployerProfile envC8 "ethereum" "0xdep") [] [] 2000000).overall_score =
        clampInt 0 100
          ((calculateCreatorTrustScore (getDeployerProfile envC8 "ethereum" "0xdep") [] [] 2000000).wallet_maturity_score +
            (calculateCreatorTrustScore (getDeployerProfile envC8 "ethereum" "0xdep") [] [] 2000000).deployment_history_score +
            (calculateCreatorTrustScore (getDeployerProfile envC8 "ethereum" "0xdep") [] [] 2000000).sibling_survival_score +
            (calculateCreatorTrustScore (getDeployerProfile envC8 "ethereum" "0xdep") [] [] 2000000).funding_transparency_score +
            (calculateCreatorTrustScore (getDeployerProfile envC8 "ethereum" "0xdep") [] [] 2000000).behavioral_patterns_score)) :=
  C1_scores_in_range_and_clamped sampleAnalysis
    (by intro s hs; simp [sampleAnalysis] at hs; omega)
    (by intro s hs; simp [sampleAnalysis] at hs)
    (getDeployerProfile envC8 "ethereum" "0xdep") [] [] 2000000

/-- C2: the risk tier is a pure, monotonic step function of the overall score,
computed identically by the score aggregator (`_determine_risk_level`) and
the creator trust score: very_low for 85 and above, low on [70,85),
medium on [50,70), high on [30,50), critical below 30. -/
theorem C2_risk_tier_step_function (s : Int) :
    (determineRiskLevel s).level = creatorRiskLevel s ∧
    (85 ≤ s → creatorRiskLevel s = "very_low") ∧
    (70 ≤ s ∧ s < 85 → creatorRiskLevel s = "low") ∧
    (50 ≤ s ∧ s < 70 → creatorRiskLevel s = "medium") ∧
    (30 ≤ s ∧ s < 50 → creatorRiskLevel s = "high") ∧
    (s < 30 → creatorRiskLevel s = "critical") ∧
    (∀ t : Int, s ≤ t → riskRank (creatorRiskLevel s) ≤ riskRank (creatorRiskLevel t)) := by
  refine ⟨?_, ?_, ?_, ?_, ?_, ?_, ?_⟩
  · simp only [determineRiskLevel, creatorRiskLevel]
    split_ifs <;> rfl
  · intro h
    simp only [creatorRiskLevel]
    split_ifs <;> rfl
  · intro h
    simp only [creatorRiskLevel]
    split_ifs <;> first | rfl | omega
  · intro h
    simp only [creatorRiskLevel]
    split_ifs <;> first | rfl | omega
  · intro h
    simp only [creatorRiskLevel]
    split_ifs <;> first | rfl | omega
  · intro h
    simp only [creatorRiskLevel]
    split_ifs <;> first | rfl | omega
  · intro t ht
    simp only [creatorRiskLevel]
    split_ifs <;> first | decide | (exfalso; omega)

/-- C2 witness: the tier breakpoints evaluated at the documented sample
points, each through the theorem. -/
theorem C2_risk_tier_step_function_witness :
    (determineRiskLevel 85).level = creatorRiskLevel 85 ∧
    creatorRiskLevel 85 = "very_low" ∧
    creatorRiskLevel 84 = "low" ∧
    creatorRiskLevel 70 = "low" ∧
    creatorRiskLevel 69 = "medium" ∧
    creatorRiskLevel 50 = "medium" ∧
    creatorRiskLevel 49 = "high" ∧
    creatorRiskLevel 30 = "high" ∧
    creatorRiskLevel 29 = "critical" ∧
    creatorRiskLevel 0 = "critical" ∧
    riskRank (creatorRiskLevel 10) ≤ riskRank (creatorRiskLevel 55) :=
  ⟨(C2_risk_tier_step_function 85).1,
   (C2_risk_tier_step_function 85).2.1 (by decide),
   (C2_risk_tier_step_function 84).2.2.1 (by decide),
   (C2_risk_tier_step_function 70).2.2.1 (by decide),
   (C2_risk_tier_step_function 69).2.2.2.1 (by decide),
   (C2_risk_tier_step_function 50).2.2.2.1 (by decide),
   (C2_risk_tier_step_function 49).2.2.2.2.1 (by decide),
   (C2_risk_tier_step_function 30).2.2.2.2.1 (by decide),
   (C2_risk_tier_step_function 29).2.2.2.2.2.1 (by decide),
   (C2_risk_tier_step_function 0).2.2.2.2.2.1 (by decide),
   (C2_risk_tier_step_function 10).2.2.2.2.2.2 55 (by decide)⟩

/-- C3 counterexample: a list with exactly one signal of severity `critical`
does not always score 25 — for a critical `reentrancy` signal the flat
reentrancy penalty also applies (40 - 15 - 5 = 20). -/
theorem C3_counterexample_critical_reentrancy :
    calculateSecurityScore
      [{ type := "reentrancy", severity := "critical",
         description := "Potential reentrancy vulnerability", location := some 0 }] ≠ 25 := by
  decide

/-- C3 (amended): the empty signal list scores exactly 40 (explicit override);
a single critical signal whose kind carries no flat type penalty (neither
`reentrancy` nor `honeypot_pattern`) scores exactly 25; a single high-severity
`reentrancy` signal is deducted 10 + 5 = 15, scoring 25; and the score is
floored at 0 on every input. -/
theorem C3_security_score_values (t desc : String) (loc : Option Nat)
    (h1 : t ≠ "reentrancy") (h2 : t ≠ "honeypot_pattern")
    (desc2 : String) (loc2 : Option Nat) (vulnerabilities : List RiskSignal) :
    calculateSecurityScore [] = 40 ∧
    calculateSecurityScore [{ type := t, severity := "critical",
                              description := desc, location := loc }] = 25 ∧
    calculateSecurityScore [{ type := "reentrancy", severity := "high",
                              description := desc2, location := loc2 }] = 25 ∧
    0 ≤ calculateSecurityScore vulnerabilities := by
  refine ⟨by decide, ?_, ?_, le_max_right _ _⟩
  · simp [calculateSecurityScore, severityDeduction, h1, h2]
  · simp [calculateSecurityScore, severityDeduction]

/-- C3 witness: the amended statement evaluated at a critical signal of a
neutral kind. -/
theorem C3_security_score_values_witness :
    calculateSecurityScore [] = 40 ∧
    calculateSecurityScore [{ type := "missing_access_control", severity := "critical",
                              description := "", location := none }] = 25 ∧
    calculateSecurityScore [{ type := "reentrancy", severity := "high",
                              description := "", location := none }] = 25 ∧
    0 ≤ calculateSecurityScore [] :=
  C3_security_score_values "missing_access_control" "" none
    (by decide) (by decide) "" none []

/-- C9: a tokenomics analysis with buyFee=300 and sellFee=400 basis points
(both at most 5%), non-modifiable fees, no blacklist, no mint, no
max-transaction limit and not pausable scores exactly 5+3+4+4+2+2 = 20,
whatever the remaining fields and accumulated red-flag/warning lists are. -/
theorem C9_tokenomics_perfect_score (transfer_fee : Option Int)
    (burn cooldown : Bool) (red_flags warnings : List String) :
    calculateTokenomicsScore
      { fees := { buy_fee := some 300, sell_fee := some 400,
                  transfer_fee := transfer_fee, is_modifiable := false }
        burn_mechanism := burn
        mint_mechanism := false
        pausable := false
        blacklist_mechanism := false
        max_transaction_limit := false
        cooldown_mechanism := cooldown }
      red_flags warnings = 20 := by
  simp [calculateTokenomicsScore]

/-- C4: when the deployer-resolution step finds no creation record, the whole
creator trace returns a failure result: `success = false`, an explanatory
error, and no creator trust score. -/
theorem C4_no_creator_fails_closed (env : CreatorEnv) (blockchain addr : String)
    (h : env.getContractCreator addr = none) :
    (analyzeCreator env blockchain addr).success = false ∧
    (analyzeCreator env blockchain addr).error =
      some "Could not find contract creator. The contract may predate explorer tracking." ∧
    (analyzeCreator env blockchain addr).creator_trust_score = none := by
  simp [analyzeCreator, h]

/-- C4 witness: a concrete environment with no creation record for the queried
address. -/
theorem C4_no_creator_fails_closed_witness :
    (analyzeCreator envC8 "ethereum" "0xunknown").success = false ∧
    (analyzeCreator envC8 "ethereum" "0xunknown").error =
      some "Could not find contract creator. The contract may predate explorer tracking." ∧
    (analyzeCreator envC8 "ethereum" "0xunknown").creator_trust_score = none :=
  C4_no_creator_fails_closed envC8 "ethereum" "0xunknown" (by decide)

/-- C5: whenever the creator lookup succeeds, the deep-checked sibling list is
exactly the first `MAX_SIBLING_DEEP_CHECK` (= 10) siblings in the provider
ordering, each merged with its health check; in particular the number of
deep-checked siblings (and hence of per-sibling external-call batches) is
`min(number of siblings, 10)`. -/
theorem C5_sibling_deep_check_cap (env : CreatorEnv) (blockchain addr : String)
    (creator_info : CreatorInfo) (h : env.getContractCreator addr = some creator_info) :
    (analyzeCreator env blockchain addr).sibling_contracts =
      ((findSiblingContracts env (resolveDeployer env creator_info).1 addr).take
        MAX_SIBLING_DEEP_CHECK).map
        (fun s => mergeSiblingHealth s (checkSiblingHealth env s.address)) ∧
    (analyzeCreator env blockchain addr).sibling_contracts.length =
      min (findSiblingContracts env (resolveDeployer env creator_info).1 addr).length
        MAX_SIBLING_DEEP_CHECK := by
  constructor
  · simp [analyzeCreator, h]
  · simp [analyzeCreator, h, List.length_take]
    omega

/-- C5 witness: with 50 siblings, exactly the first 10 are deep-checked. -/
theorem C5_sibling_deep_check_cap_witness :
    (analyzeCreator envFifty "ethereum" "0xtoken").sibling_contracts.length = 10 := by
  have h := (C5_sibling_deep_check_cap envFifty "ethereum" "0xtoken"
    ⟨"0xdep", "0xcreatehash"⟩ (by decide)).2
  rw [h]
  decide

/-- C8: the code reports `lifespan_days = 0` for a deep-checked sibling even
when both the creation timestamp (1000000) and the last observed activity
(1864000) are known — `_check_sibling_health` initialises the field to 0 and,
contrary to its own comment, no caller ever sets it; the documented value
would be the truncated day count 10. -/
theorem C8_lifespan_never_computed :
    (analyzeCreator envC8 "ethereum" "0xtoken").success = true ∧
    ((analyzeCreator envC8 "ethereum" "0xtoken").sibling_contracts.map
      (fun s => (s.creation_ts, s.last_tx_timestamp, s.lifespan_days)))
      = [(1000000, some 1864000, 0)] ∧
    Int.tdiv (1864000 - 1000000) 86400 = 10 := by
  refine ⟨rfl, ?_, by decide⟩
  decide

/-- C10: for a valid address with unverified source, the high-severity
`unverified_contract` entry goes to `warnings`, never to the vulnerability
list; the vulnerabilities are exactly the bytecode-check signals, so when the
bytecode checks are silent the list is empty and the security sub-score is
exactly 40. -/
theorem C10_unverified_warning_routing (env : EVMEnv) (addr : String)
    (hvalid : env.isValidAddress addr = true)
    (hsrc : env.getContractSourceCode addr = none) :
    (analyzeContract env addr).warnings = [unverifiedContractWarning] ∧
    (analyzeContract env addr).vulnerabilities =
      (if env.getContractCode addr ≠ "" ∧ env.getContractCode addr ≠ "0x"
       then analyzeBytecode (env.getContractCode addr) else []) ∧
    (analyzeBytecode (env.getContractCode addr) = [] →
      (analyzeContract env addr).vulnerabilities = [] ∧
      calculateSecurityScore (analyzeContract env addr).vulnerabilities = 40) := by
  have hmain : (analyzeContract env addr).warnings = [unverifiedContractWarning] ∧
      (analyzeContract env addr).vulnerabilities =
        (if env.getContractCode addr ≠ "" ∧ env.getContractCode addr ≠ "0x"
         then analyzeBytecode (env.getContractCode addr) else []) := by
    simp only [analyzeContract, hvalid, hsrc]
    split_ifs with h1 h2 <;> simp_all
  refine ⟨hmain.1, hmain.2, fun hbc => ?_⟩
  have hv : (analyzeContract env addr).vulnerabilities = [] := by
    rw [hmain.2]
    split_ifs <;> simp [hbc]
  exact ⟨hv, by rw [hv]; decide⟩

/-- C10 witness: a concrete unverified contract with benign bytecode. -/
theorem C10_unverified_warning_routing_witness :
    (analyzeContract envUnverified "0xabc").warnings = [unverifiedContractWarning] ∧
    (analyzeContract envUnverified "0xabc").vulnerabilities =
      (if envUnverified.getContractCode "0xabc" ≠ "" ∧
          envUnverified.getContractCode "0xabc" ≠ "0x"
       then analyzeBytecode (envUnverified.getContractCode "0xabc") else []) ∧
    (analyzeBytecode (envUnverified.getContractCode "0xabc") = [] →
      (analyzeContract envUnverified "0xabc").vulnerabilities = [] ∧
      calculateSecurityScore (analyzeContract envUnverified "0xabc").vulnerabilities = 40) :=
  C10_unverified_warning_routing envUnverified "0xabc" rfl rfl

/-! ## Graph node-set lemmas -/

lemma mem_addNode (acc : List String) (b a : String) :
    a ∈ addNode acc b ↔ a ∈ acc ∨ a = b := by
  unfold addNode
  split_ifs with h
  · simp only [List.contains] at h
    constructor
    · exact Or.inl
    · rintro (h1 | rfl)
      · exact h1
      · simpa using h
  · simp [List.mem_append]

lemma mem_collectNodes_aux (edges : List EdgeCell) :
    ∀ (acc : List String) (a : String),
      a ∈ edges.foldl (fun acc e => addNode (addNode acc e.source) e.target) acc ↔
        a ∈ acc ∨ ∃ e ∈ edges, a = e.source ∨ a = e.target := by
  induction edges with
  | nil => simp
  | cons e es ih =>
    intro acc a
    rw [List.foldl_cons, ih, mem_addNode, mem_addNode]
    simp only [List.mem_cons]
    constructor
    · rintro (((h | h) | h) | ⟨e', he', h⟩)
      · exact Or.inl h
      · exact Or.inr ⟨e, Or.inl rfl, Or.inl h⟩
      · exact Or.inr ⟨e, Or.inl rfl, Or.inr h⟩
      · exact Or.inr ⟨e', Or.inr he', h⟩
    · rintro (h | ⟨e', (rfl | he'), h⟩)
      · exact Or.inl (Or.inl (Or.inl h))
      · rcases h with h | h
        · exact Or.inl (Or.inl (Or.inr h))
        · exact Or.inl (Or.inr h)
      · exact Or.inr ⟨e', he', h⟩

lemma mem_collectNodes (edges : List EdgeCell) (a : String) :
    a ∈ collectNodes edges ↔ ∃ e ∈ edges, a = e.source ∨ a = e.target := by
  unfold collectNodes
  rw [mem_collectNodes_aux]
  simp

lemma bumpEdge_source (e : EdgeCell) (v : ℚ) (ty : String) (av : Bool) :
    (bumpEdge e v ty av).source = e.source := rfl

lemma bumpEdge_target (e : EdgeCell) (v : ℚ) (ty : String) (av : Bool) :
    (bumpEdge e v ty av).target = e.target := rfl

lemma endpoint_addTxToEdges (edges : List EdgeCell) (f t : String) (v : ℚ)
    (ty : String) (av : Bool) (a : String) :
    (∃ e ∈ addTxToEdges edges f t v ty av, a = e.source ∨ a = e.target) ↔
      (∃ e ∈ edges, a = e.source ∨ a = e.target) ∨ a = f ∨ a = t := by
  unfold addTxToEdges
  split_ifs with h
  · have hpres : ∀ e : EdgeCell,
        ((if e.source = f ∧ e.target = t then bumpEdge e v ty av else e).source = e.source ∧
         (if e.source = f ∧ e.target = t then bumpEdge e v ty av else e).target = e.target) := by
      intro e
      split_ifs <;> simp [bumpEdge]
    constructor
    · rintro ⟨e', he', hae⟩
      obtain ⟨e0, he0, rfl⟩ := List.mem_map.mp he'
      exact Or.inl ⟨e0, he0, by rw [(hpres e0).1, (hpres e0).2] at hae; exact hae⟩
    · rintro (⟨e0, he0, hae⟩ | hft)
      · refine ⟨_, List.mem_map_of_mem _ he0, ?_⟩
        rw [(hpres e0).1, (hpres e0).2]
        exact hae
      · simp only [List.any_eq_true, decide_eq_true_eq] at h
        obtain ⟨e0, he0, h1, h2⟩ := h
        refine ⟨_, List.mem_map_of_mem _ he0, ?_⟩
        rw [(hpres e0).1, (hpres e0).2, h1, h2]
        exact hft
  all_goals
    constructor
    · rintro ⟨e', he', hae⟩
      rcases List.mem_append.mp he' with h1 | h1
      · exact Or.inl ⟨e', h1, hae⟩
      · simp only [List.mem_singleton] at h1
        subst h1
        exact Or.inr hae
    · rintro (⟨e0, he0, hae⟩ | hft)
      · exact ⟨e0, List.mem_append_left _ he0, hae⟩
      · exact ⟨_, List.mem_append_right _ (List.mem_singleton_self _), hft⟩

lemma endpoint_processTxStream (ty : String) (av : Bool) (txns : List GraphTx) :
    ∀ (edges : List EdgeCell) (a : String),
      (∃ e ∈ processTxStream edges txns ty av, a = e.source ∨ a = e.target) ↔
        (∃ e ∈ edges, a = e.source ∨ a = e.target) ∨
          ∃ tx ∈ txns, (pyLower tx.fromAddr ≠ "" ∧ pyLower tx.toAddr ≠ "") ∧
            (a = pyLower tx.fromAddr ∨ a = pyLower tx.toAddr) := by
  induction txns with
  | nil => simp [processTxStream]
  | cons tx txs ih =>
    intro edges a
    have hstep : processTxStream edges (tx :: txs) ty av =
        processTxStream
          (if pyLower tx.fromAddr = "" ∨ pyLower tx.toAddr = "" then edges
           else addTxToEdges edges (pyLower tx.fromAddr) (pyLower tx.toAddr)
             ((tx.value : ℚ) / 1000000000000000000) ty av) txs ty av := by
      simp only [processTxStream, List.foldl_cons]
    rw [hstep, ih]
    by_cases hskip : pyLower tx.fromAddr = "" ∨ pyLower tx.toAddr = ""
    · rw [if_pos hskip]
      simp only [List.mem_cons]
      constructor
      · rintro (h | ⟨tx', htx', hcond, hend⟩)
        · exact Or.inl h
        · exact Or.inr ⟨tx', Or.inr htx', hcond, hend⟩
      · rintro (h | ⟨tx', (rfl | htx'), hcond, hend⟩)
        · exact Or.inl h
        · exact absurd hskip (by tauto)
        · exact Or.inr ⟨tx', htx', hcond, hend⟩
    · rw [if_neg hskip, endpoint_addTxToEdges]
      push_neg at hskip
      simp only [List.mem_cons]
      constructor
      · rintro ((h | h) | ⟨tx', htx', hcond, hend⟩)
        · exact Or.inl h
        · exact Or.inr ⟨tx, Or.inl rfl, hskip, h⟩
        · exact Or.inr ⟨tx', Or.inr htx', hcond, hend⟩
      · rintro (h | ⟨tx', (rfl | htx'), hcond, hend⟩)
        · exact Or.inl (Or.inl h)
        · exact Or.inl (Or.inr hend)
        · exact Or.inr ⟨tx', htx', hcond, hend⟩

/-- C6 counterexample: with a single normal transaction `0xa → 0xb` and
center `0xc`, the built graph's node set is exactly the two edge endpoints —
the isolated center is not a node, contradicting the claimed
"plus the center address even if isolated". -/
theorem C6_counterexample_isolated_center :
    (buildGraph "0xc" [{ fromAddr := "0xa", toAddr := "0xb", value := 0 }] [] []).1.nodes
      = ["0xa", "0xb"] ∧
    (buildGraph "0xc" [{ fromAddr := "0xa", toAddr := "0xb", value := 0 }] [] []).1.nodes.contains
      "0xc" = false := by
  decide

/-- C6 (amended): the node set of the built interaction graph is exactly the
set of edge endpoints — the lowercased `from`/`to` of every transaction of
the three streams that has non-empty `from` and `to`; the center address is a
node only when it occurs among those endpoints. -/
theorem C6_node_set_characterization (center_address : String)
    (normal internal token : List GraphTx) (a : String) :
    a ∈ (buildGraph center_address normal internal token).1.nodes ↔
      ∃ tx ∈ normal ++ internal ++ token,
        (pyLower tx.fromAddr ≠ "" ∧ pyLower tx.toAddr ≠ "") ∧
          (a = pyLower tx.fromAddr ∨ a = pyLower tx.toAddr) := by
  have hnodes : (buildGraph center_address normal internal token).1.nodes =
      collectNodes (processTxStream
        (processTxStream (processTxStream [] normal "normal" true)
          internal "internal" true) token "token" false) := rfl
  rw [hnodes, mem_collectNodes,
    endpoint_processTxStream, endpoint_processTxStream, endpoint_processTxStream]
  simp only [List.mem_append, List.not_mem_nil, false_and, exists_false,
    false_or, exists_prop]
  constructor
  · rintro ((h | h) | h)
    · obtain ⟨tx, htx, hc⟩ := h
      exact ⟨tx, Or.inl (Or.inl htx), hc⟩
    · obtain ⟨tx, htx, hc⟩ := h
      exact ⟨tx, Or.inl (Or.inr htx), hc⟩
    · obtain ⟨tx, htx, hc⟩ := h
      exact ⟨tx, Or.inr htx, hc⟩
  · rintro ⟨tx, (htx | htx) | htx, hc⟩
    · exact Or.inl (Or.inl ⟨tx, htx, hc⟩)
    · exact Or.inl (Or.inr ⟨tx, htx, hc⟩)
    · exact Or.inr ⟨tx, htx, hc⟩

/-- C7: for exactly two normal transactions `0xa → 0xb` (value 1) and
`0xb → 0xa` (value 1), the built graph has exactly 2 nodes and 2 edges, each
edge with count 1, and pattern detection reports a `circular_flow` pattern
(the 2-node mutual transfer is a simple cycle of length 2), whatever the
external checksum-conversion function used for labeling is. -/
theorem C7_mutual_transfer_circular_flow (checksum : String → String) :
    (buildGraph "0xa" [{ fromAddr := "0xa", toAddr := "0xb", value := 1 },
        { fromAddr := "0xb", toAddr := "0xa", value := 1 }] [] []).1.nodes.length = 2 ∧
    (buildGraph "0xa" [{ fromAddr := "0xa", toAddr := "0xb", value := 1 },
        { fromAddr := "0xb", toAddr := "0xa", value := 1 }] [] []).1.edges.length = 2 ∧
    ((buildGraph "0xa" [{ fromAddr := "0xa", toAddr := "0xb", value := 1 },
        { fromAddr := "0xb", toAddr := "0xa", value := 1 }] [] []).1.edges.all
      (fun e => e.count = 1)) = true ∧
    "circular_flow" ∈ detectPatterns "ethereum" checksum
      (buildGraph "0xa" [{ fromAddr := "0xa", toAddr := "0xb", value := 1 },
        { fromAddr := "0xb", toAddr := "0xa", value := 1 }] [] []).1 "0xa" := by
  refine ⟨by decide, by decide, by decide, ?_⟩
  have hlen : ¬ ((buildGraph "0xa" [{ fromAddr := "0xa", toAddr := "0xb", value := 1 },
      { fromAddr := "0xb", toAddr := "0xa", value := 1 }] [] []).1.nodes.length < 2) := by
    decide
  have hcyc : hasShortCycle (buildGraph "0xa"
      [{ fromAddr := "0xa", toAddr := "0xb", value := 1 },
       { fromAddr := "0xb", toAddr := "0xa", value := 1 }] [] []).1 = true := by
    decide
  unfold detectPatterns
  rw [if_neg hlen, hcyc]
  simp
